import Mathlib

/-!
# Verification of the Glitch Runner simulation engine

This file gives a shallow embedding, in Lean 4, of the core frame-loop of the
Glitch Runner game (the `gameLoop`, `setupLevel` and `checkCollision` functions
of the main application module, together with the data model of `types.ts` and
the constants of `constants.ts`).  JavaScript numbers are modelled as real
numbers; entity ids are modelled by an inductive id type (the source uses
strings such as `player_1` and interpolated projectile ids
`proj_<parent>_<now>`; we use natural-number tags and a constructor carrying
the parent id and the spawn timestamp, which has the same distinctness
behaviour).  Sound and message side effects are ignored: they influence no
simulation state.

The frame loop is embedded as a pure step function: per-frame mutable state
(the entity array, the click-target ref, the projectile buffer) is threaded
explicitly, and the early `return` statements of the source (death reset,
level complete) become an abort value.
-/

noncomputable section

open Classical

namespace GlitchRunner

/-- Low-priority classical fallback so that the `if` conditions of the source
(real-number comparisons) elaborate. -/
noncomputable instance (priority := low) classicalDec (p : Prop) : Decidable p :=
  Classical.propDecidable p

/-- `types.ts` `Vector2`: a pair of (real-valued) coordinates. -/
structure Vector2 where
  x : ℝ
  y : ℝ

/-- `types.ts` `EntityType`. -/
inductive EntityType
  | player | wall | door | platform | enemy | projectile | exit | text
deriving DecidableEq

/-- `types.ts` behavior tag `'DEFAULT' | 'PATROL' | 'TURRET'`. -/
inductive Behavior
  | default | patrol | turret
deriving DecidableEq

/-- Entity ids.  The source uses strings; blueprint ids are modelled as
numbered names and the interpolated projectile id `proj_<parent>_<now>` as a
constructor carrying the parent id and the timestamp. -/
inductive EntId
  | named (n : ℕ)
  | proj (parent : EntId) (t : ℝ)

/-- `types.ts` `GameEntity` (decorative fields `name`, `color`, `label`,
`description`, and the legacy `patrolRange`, which the loop never reads, are
omitted).  Optional JS fields that the loop tests with `!== undefined` or
truthiness are `Option`s; boolean optional fields that the loop only tests for
truthiness (`isDeadly`) are plain `Bool` (JS `undefined` behaves as `false`). -/
structure GameEntity where
  id : EntId
  type : EntityType
  pos : Vector2
  size : Vector2
  velocity : Vector2
  isStatic : Bool
  isSolid : Bool
  isVisible : Bool
  isDeadly : Bool
  gravityScale : Option ℝ
  behavior : Behavior
  patrolStart : Option Vector2
  patrolEnd : Option Vector2
  patrolSpeed : Option ℝ
  fireRate : Option ℝ
  projectileSpeed : Option ℝ
  lastFireTime : Option ℝ
  origin : Option Vector2

/-- `types.ts` `GlobalPhysics`. -/
structure GlobalPhysics where
  gravity : ℝ
  friction : ℝ
  timeScale : ℝ

/-- The held-key set read by the loop (`ArrowRight`/`KeyD`, `ArrowLeft`/`KeyA`,
`ArrowUp`/`KeyW`/`Space`). -/
structure Keys where
  left : Bool
  right : Bool
  jump : Bool

/-- `constants.ts` `CANVAS_WIDTH`. -/
def CANVAS_WIDTH : ℝ := 800

/-- `constants.ts` `CANVAS_HEIGHT`. -/
def CANVAS_HEIGHT : ℝ := 600

/-- `checkCollision` (main module, lines 645-652): strict AABB overlap test on
both axes. -/
def checkCollision (a b : GameEntity) : Prop :=
  a.pos.x < b.pos.x + b.size.x ∧
  a.pos.x + a.size.x > b.pos.x ∧
  a.pos.y < b.pos.y + b.size.y ∧
  a.pos.y + a.size.y > b.pos.y

/-- The patrol speed actually used: `ent.patrolSpeed || 100` (line 388; JS `||`
treats `0` and `undefined` as absent). -/
def patrolSpeedOf (ent : GameEntity) : ℝ :=
  match ent.patrolSpeed with
  | none => 100
  | some sp => if sp = 0 then 100 else sp

/-- The PATROL behavior update (lines 387-421): guard
`behavior === 'PATROL' && patrolStart && patrolEnd && !isStatic`; when the path
has positive length, initialize the velocity along the path if it is exactly
zero, reverse it at projected progress `>= 1` when moving forward
(`velocity · path >= 0`), restore the forward direction at progress `<= 0` when
moving backward, and otherwise leave the entity unchanged. -/
def patrolUpdate (ent : GameEntity) : GameEntity :=
  match ent.patrolStart, ent.patrolEnd with
  | some ps, some pe =>
    if ent.behavior = Behavior.patrol ∧ ent.isStatic = false then
      let speed := patrolSpeedOf ent
      let path : Vector2 := ⟨pe.x - ps.x, pe.y - ps.y⟩
      let pathLen := Real.sqrt (path.x ^ 2 + path.y ^ 2)
      if pathLen > 0 then
        let toPos : Vector2 := ⟨ent.pos.x - ps.x, ent.pos.y - ps.y⟩
        let dot := toPos.x * path.x + toPos.y * path.y
        let progress := dot / (pathLen * pathLen)
        let velocityDot := ent.velocity.x * path.x + ent.velocity.y * path.y
        if ent.velocity.x = 0 ∧ ent.velocity.y = 0 then
          { ent with velocity := ⟨path.x / pathLen * speed, path.y / pathLen * speed⟩ }
        else if velocityDot ≥ 0 ∧ progress ≥ 1 then
          { ent with velocity := ⟨-(path.x / pathLen) * speed, -(path.y / pathLen) * speed⟩ }
        else if ¬(velocityDot ≥ 0) ∧ progress ≤ 0 then
          { ent with velocity := ⟨path.x / pathLen * speed, path.y / pathLen * speed⟩ }
        else ent
      else ent
    else ent
  | _, _ => ent

/-- Center of an entity's rectangle, `pos + size/2` (lines 429, 432-433). -/
def entCenter (e : GameEntity) : Vector2 :=
  ⟨e.pos.x + e.size.x / 2, e.pos.y + e.size.y / 2⟩

/-- `Math.atan2 y x`, modelled by the argument of the complex number `x + y i`
(both have range `(-π, π]` and send `(0, 0)` to `0`). -/
def atan2 (y x : ℝ) : ℝ := Complex.arg ⟨x, y⟩

/-- `currentEntities.find(e => e.type === EntityType.PLAYER)` (line 426). -/
def findPlayer (es : List GameEntity) : Option GameEntity :=
  es.find? fun e => decide (e.type = EntityType.player)

/-- JS truthiness of an optional number (`undefined`, and `0`, are falsy). -/
def truthyOpt (o : Option ℝ) : Prop :=
  match o with
  | none => False
  | some r => r ≠ 0

/-- The projectile record pushed by a firing turret (lines 454-467).  The
source id is the string `proj_<turret id>_<now>`. -/
def mkProjectile (parent : EntId) (now : ℝ) (pos vel : Vector2) : GameEntity :=
  { id := EntId.proj parent now
    type := EntityType.projectile
    pos := pos
    size := ⟨10, 10⟩
    velocity := vel
    isStatic := false
    isSolid := false
    isVisible := true
    isDeadly := true
    gravityScale := some 0
    behavior := Behavior.default
    patrolStart := none, patrolEnd := none, patrolSpeed := none
    fireRate := none, projectileSpeed := none, lastFireTime := none
    origin := none }

/-- Result of the turret update: the (possibly re-armed) turret and the list of
projectiles it pushed onto `newProjectiles` this frame. -/
structure TurretResult where
  ent : GameEntity
  spawned : List GameEntity

/-- The `shouldFire`/`fireVelocity`/`spawnPos` computation of the turret block
(lines 426-449): `some (fireVelocity, spawnPos)` when the turret wants to fire
(player found, visible, center distance `< 500`), `none` otherwise. -/
def turretFireData (all : List GameEntity) (ent : GameEntity) :
    Option (Vector2 × Vector2) :=
  match findPlayer all with
  | none => none
  | some player =>
    if player.isVisible = true then
      let tc := entCenter ent
      let pc := entCenter player
      let dx := pc.x - tc.x
      let dy := pc.y - tc.y
      let dist := Real.sqrt (dx * dx + dy * dy)
      if dist < 500 then
        let angle := atan2 dy dx
        let projSpeed : ℝ :=
          match ent.projectileSpeed with
          | none => 300
          | some s => if s = 0 then 300 else s
        some (⟨Real.cos angle * projSpeed, Real.sin angle * projSpeed⟩,
              ⟨tc.x + Real.cos angle * 35 - 5, tc.y + Real.sin angle * 35 - 5⟩)
      else none
    else none

/-- The firing condition of line 451,
`!ent.lastFireTime || now - ent.lastFireTime > ent.fireRate` (JS truthiness:
a `lastFireTime` of `0` counts as unset). -/
def fireArmed (now : ℝ) (ent : GameEntity) : Prop :=
  match ent.lastFireTime with
  | none => True
  | some t => t = 0 ∨ now - t > ent.fireRate.getD 0

/-- The TURRET behavior update (lines 424-468): guard
`behavior === 'TURRET' && ent.fireRate` (truthiness).  When the turret wants to
fire (`turretFireData`) and is armed (`fireArmed`), it sets
`lastFireTime = now` and spawns one projectile 35 units along the aim angle
(offset `-5` on each axis), with speed `ent.projectileSpeed || 300`. -/
def turretUpdate (now : ℝ) (all : List GameEntity) (ent : GameEntity) : TurretResult :=
  if ent.behavior = Behavior.turret ∧ truthyOpt ent.fireRate then
    match turretFireData all ent with
    | none => ⟨ent, []⟩
    | some fv =>
      if fireArmed now ent then
        ⟨{ ent with lastFireTime := some now }, [mkProjectile ent.id now fv.2 fv.1]⟩
      else ⟨ent, []⟩
  else ⟨ent, []⟩

/-- The fire times a turret records over a sequence of frame timestamps: the
entity is threaded through `turretUpdate` frame by frame (the in-place
`currentEntities[i] = ent` write-back, lines 472/629, preserves `lastFireTime`
between frames); `all` is the per-frame entity context, here held fixed. -/
def turretRun (all : List GameEntity) (ent : GameEntity) : List ℝ → List ℝ
  | [] => []
  | t :: ts =>
    (if (turretUpdate t all ent).spawned = [] then ([] : List ℝ) else [t]) ++
      turretRun all (turretUpdate t all ent).ent ts

/-- Gravity integration (lines 477-478):
`velocity.y += gravity * 2000 * gravityScale * deltaTime`, with the multiplier
defaulting to `1` when `gravityScale` is undefined. -/
def applyGravity (phys : GlobalPhysics) (dt : ℝ) (ent : GameEntity) : GameEntity :=
  let m := ent.gravityScale.getD 1
  { ent with velocity := ⟨ent.velocity.x, ent.velocity.y + phys.gravity * 2000 * m * dt⟩ }

/-- Result of the player-control block: the updated player and the updated
click-target ref. -/
structure ControlResult where
  ent : GameEntity
  target : Option ℝ

/-- The player control law (lines 481-519, sound cues dropped): manual keys add
`±300 * dt` to `velocity.x`, clear the click-target and apply friction; with no
manual input but a pending click-target, the target is consumed (and
`velocity.x` zeroed) within 5 units of the entity center, else `velocity.x` is
set to `sign(diff) * 200`; with neither, friction only. -/
def playerControl (phys : GlobalPhysics) (keys : Keys) (dt : ℝ)
    (target : Option ℝ) (ent : GameEntity) : ControlResult :=
  let vx1 := if keys.right = true then ent.velocity.x + 300 * dt else ent.velocity.x
  let vx2 := if keys.left = true then vx1 - 300 * dt else vx1
  if keys.right = true ∨ keys.left = true then
    ⟨{ ent with velocity := ⟨vx2 * phys.friction, ent.velocity.y⟩ }, none⟩
  else
    match target with
    | some tx =>
      let center := ent.pos.x + ent.size.x / 2
      let diff := tx - center
      if |diff| < 5 then
        ⟨{ ent with velocity := ⟨0, ent.velocity.y⟩ }, none⟩
      else
        ⟨{ ent with velocity := ⟨Real.sign diff * 200, ent.velocity.y⟩ }, some tx⟩
    | none => ⟨{ ent with velocity := ⟨vx2 * phys.friction, ent.velocity.y⟩ }, none⟩

/-- The two early-`return` outcomes of the loop body: a death reset
(`resetLevel()` at lines 539, 544, 571, 577, 600) and level completion
(lines 615-626). -/
inductive Abort
  | reset | complete

/-- Mutable state threaded through the X-axis collision loop (lines 531-557):
the entity being resolved, the tentative `nextX`, and the click-target ref. -/
structure XPassState where
  ent : GameEntity
  nextX : ℝ
  target : Option ℝ

/-- One iteration of the X-axis collision loop (lines 531-557).  `rectX` is the
`entRectX` rectangle built once, before the loop, at line 530; it is *not*
rebuilt when `nextX` reverts.  Guards in source order: self (by id), neither
solid nor deadly, invisible.  On overlap: player-vs-deadly and
projectile-vs-player abort the frame (death); projectile-vs-wall marks the
projectile invisible; a solid counterpart stops (or, for PATROL, reflects)
`velocity.x`, reverts `nextX` to the pre-move `pos.x`, and clears the player's
click-target. -/
def collideXOne (rectX : GameEntity) (st : XPassState) (other : GameEntity) :
    Except Abort XPassState :=
  if other.id = st.ent.id then Except.ok st
  else if other.isSolid = false ∧ other.isDeadly = false then Except.ok st
  else if other.isVisible = false then Except.ok st
  else if checkCollision rectX other then
    if st.ent.type = EntityType.player ∧ other.isDeadly = true then
      Except.error Abort.reset
    else if st.ent.type = EntityType.projectile ∧ other.type = EntityType.player then
      Except.error Abort.reset
    else
      let ent1 :=
        if st.ent.type = EntityType.projectile ∧ other.type = EntityType.wall then
          { st.ent with isVisible := false }
        else st.ent
      if other.isSolid = true then
        let ent2 :=
          if ent1.behavior = Behavior.patrol then
            { ent1 with velocity := ⟨-ent1.velocity.x, ent1.velocity.y⟩ }
          else
            { ent1 with velocity := ⟨0, ent1.velocity.y⟩ }
        Except.ok ⟨ent2, ent2.pos.x,
          if ent2.type = EntityType.player then none else st.target⟩
      else Except.ok ⟨ent1, st.nextX, st.target⟩
  else Except.ok st

/-- The X-axis collision loop, folded over the current entity array. -/
def collideXLoop (rectX : GameEntity) (st : XPassState) :
    List GameEntity → Except Abort XPassState
  | [] => Except.ok st
  | o :: rest =>
    match collideXOne rectX st o with
    | Except.error a => Except.error a
    | Except.ok st2 => collideXLoop rectX st2 rest

/-- Mutable state threaded through the Y-axis collision loop (lines 564-594). -/
structure YPassState where
  ent : GameEntity
  nextY : ℝ
  grounded : Bool

/-- One iteration of the Y-axis collision loop (lines 564-594).  `rectY` is the
rectangle built once at line 562.  Same guards and death/projectile cases as
the X pass; a solid counterpart snaps the entity on top of it (marking it
grounded) when moving downward, or below it when moving upward, zeroing
`velocity.y` either way. -/
def collideYOne (rectY : GameEntity) (st : YPassState) (other : GameEntity) :
    Except Abort YPassState :=
  if other.id = st.ent.id then Except.ok st
  else if other.isSolid = false ∧ other.isDeadly = false then Except.ok st
  else if other.isVisible = false then Except.ok st
  else if checkCollision rectY other then
    if st.ent.type = EntityType.player ∧ other.isDeadly = true then
      Except.error Abort.reset
    else if st.ent.type = EntityType.projectile ∧ other.type = EntityType.player then
      Except.error Abort.reset
    else
      let ent1 :=
        if st.ent.type = EntityType.projectile ∧ other.type = EntityType.wall then
          { st.ent with isVisible := false }
        else st.ent
      if other.isSolid = true then
        if ent1.velocity.y > 0 then
          Except.ok ⟨{ ent1 with velocity := ⟨ent1.velocity.x, 0⟩ },
            other.pos.y - ent1.size.y, true⟩
        else if ent1.velocity.y < 0 then
          Except.ok ⟨{ ent1 with velocity := ⟨ent1.velocity.x, 0⟩ },
            other.pos.y + other.size.y, st.grounded⟩
        else Except.ok ⟨ent1, st.nextY, st.grounded⟩
      else Except.ok ⟨ent1, st.nextY, st.grounded⟩
  else Except.ok st

/-- The Y-axis collision loop, folded over the current entity array. -/
def collideYLoop (rectY : GameEntity) (st : YPassState) :
    List GameEntity → Except Abort YPassState
  | [] => Except.ok st
  | o :: rest =>
    match collideYOne rectY st o with
    | Except.error a => Except.error a
    | Except.ok st2 => collideYLoop rectY st2 rest

/-- Per-frame context: physics constants, held keys, the rAF timestamp and the
computed `deltaTime`. -/
structure Ctx where
  phys : GlobalPhysics
  keys : Keys
  time : ℝ
  dt : ℝ

/-- Result of processing one entity: the finalized entity written back into the
array, the click-target ref, and the projectiles it pushed this frame. -/
structure OneResult where
  ent : GameEntity
  target : Option ℝ
  spawned : List GameEntity

/-- The body of `for (let i = 0; ...)` (lines 383-629) for one entity.  `all`
is the current entity array as the collision loops, the turret's player lookup
and the exit lookup see it at this iteration.  Sequence: PATROL update, TURRET
update, static early-exit (lines 471-474), gravity, player control, X tentative
move with world-bounds clamping and off-canvas projectile culling (lines
523-528), X collision pass, `pos.x` commit (line 558), Y tentative move, Y
collision pass, `pos.y` commit (line 595), bottom-of-world check (lines
597-605), grounded jump (lines 607-613), and the player-exit check (lines
615-627).  An abort models the `return` statements (the whole frame stops). -/
def processOne (ctx : Ctx) (all : List GameEntity) (target : Option ℝ)
    (ent0 : GameEntity) : Except (Abort × Option ℝ) OneResult :=
  let ent1 := patrolUpdate ent0
  let tr := turretUpdate ctx.time all ent1
  let ent2 := tr.ent
  if ent2.isStatic = true then Except.ok ⟨ent2, target, tr.spawned⟩
  else
    let ent3 := applyGravity ctx.phys ctx.dt ent2
    let cr : ControlResult :=
      if ent3.type = EntityType.player then
        playerControl ctx.phys ctx.keys ctx.dt target ent3
      else ⟨ent3, target⟩
    let ent4 := cr.ent
    let nx0 := ent4.pos.x + ent4.velocity.x * ctx.dt
    let ent5 :=
      if (nx0 < -100 ∨ nx0 > CANVAS_WIDTH + 100) ∧ ent4.type = EntityType.projectile then
        { ent4 with isVisible := false }
      else ent4
    let p1 : ℝ × GameEntity :=
      if nx0 < 0 then (0, { ent5 with velocity := ⟨0, ent5.velocity.y⟩ }) else (nx0, ent5)
    let p2 : ℝ × GameEntity :=
      if p1.1 > CANVAS_WIDTH - p1.2.size.x then
        (CANVAS_WIDTH - p1.2.size.x, { p1.2 with velocity := ⟨0, p1.2.velocity.y⟩ })
      else p1
    let rectX := { p2.2 with pos := ⟨p2.1, p2.2.pos.y⟩ }
    match collideXLoop rectX ⟨p2.2, p2.1, cr.target⟩ all with
    | Except.error a => Except.error (a, cr.target)
    | Except.ok xst =>
      let ent6 := { xst.ent with pos := ⟨xst.nextX, xst.ent.pos.y⟩ }
      let ny0 := ent6.pos.y + ent6.velocity.y * ctx.dt
      let rectY := { ent6 with pos := ⟨ent6.pos.x, ny0⟩ }
      match collideYLoop rectY ⟨ent6, ny0, false⟩ all with
      | Except.error a => Except.error (a, xst.target)
      | Except.ok yst =>
        let ent7 := { yst.ent with pos := ⟨yst.ent.pos.x, yst.nextY⟩ }
        if ent7.pos.y > CANVAS_HEIGHT + 200 ∧ ent7.type = EntityType.player then
          Except.error (Abort.reset, xst.target)
        else
          let ent8 :=
            if ent7.pos.y > CANVAS_HEIGHT + 200 ∧ ent7.type = EntityType.projectile then
              { ent7 with isVisible := false }
            else ent7
          let ent9 :=
            if ent8.type = EntityType.player ∧ yst.grounded = true ∧ ctx.keys.jump = true then
              { ent8 with velocity := ⟨ent8.velocity.x, -600⟩ }
            else ent8
          if ent9.type = EntityType.player ∧
              (match List.find? (fun e => decide (e.type = EntityType.exit)) all with
               | some ex => checkCollision ent9 ex
               | none => False) then
            Except.error (Abort.complete, xst.target)
          else Except.ok ⟨ent9, xst.target, tr.spawned⟩

/-- Result of the whole per-frame entity loop: either every entity was
processed (the finalized list, target and spawned projectiles), or the frame
aborted mid-iteration (with the entities finalized so far). -/
inductive LoopResult
  | finished (processed : List GameEntity) (target : Option ℝ) (spawned : List GameEntity)
  | aborted (a : Abort) (processedSoFar : List GameEntity) (target : Option ℝ)

/-- The frame's entity loop (lines 383-630).  The source iterates the
`currentEntities` array in place, writing each finalized entity back into its
slot (`currentEntities[i] = ent`, lines 472 and 629), so the array an entity's
collision queries see is `done ++ e :: rest`: already-finalized entities
followed by the not-yet-processed tail (the entity's own stale slot is skipped
by the id check).  `spawned` accumulates `newProjectiles`. -/
def frameLoop (ctx : Ctx) (done : List GameEntity) (todo : List GameEntity)
    (target : Option ℝ) (spawned : List GameEntity) : LoopResult :=
  match todo with
  | [] => LoopResult.finished done target spawned
  | e :: rest =>
    match processOne ctx (done ++ e :: rest) target e with
    | Except.error a => LoopResult.aborted a.1 done a.2
    | Except.ok r => frameLoop ctx (done ++ [r.ent]) rest r.target (spawned ++ r.spawned)

/-- Outcome signal of one frame: normal commit, death reset, or level
complete. -/
inductive Outcome
  | ok | reset | complete
deriving DecidableEq

/-- Committed result of one frame. -/
structure FrameResult where
  entities : List GameEntity
  target : Option ℝ
  outcome : Outcome

/-- The filter applied to the processed array before committing (line 632):
`e.isVisible !== false || (e.type !== PROJECTILE && !e.isVisible)` — it drops
exactly the invisible projectiles. -/
def keepEntity (e : GameEntity) : Bool :=
  e.isVisible || (decide (e.type ≠ EntityType.projectile) && !e.isVisible)

/-- `deltaTime = Math.min(rawMs / 1000, 0.05) * timeScale` (line 375). -/
def computeDeltaTime (rawMs : ℝ) (timeScale : ℝ) : ℝ :=
  min (rawMs / 1000) 0.05 * timeScale

/-- One frame of `gameLoop` at a given `deltaTime`: run the entity loop; on
normal completion commit `filter ++ newProjectiles` (lines 632-634); on a death
reset keep the previous committed list (the `return` skips the commit) with the
click-target cleared by `resetLevel` (line 677); on completion likewise keep
the previous list. -/
def frameStepDt (phys : GlobalPhysics) (keys : Keys) (time dt : ℝ)
    (target : Option ℝ) (entities : List GameEntity) : FrameResult :=
  match frameLoop ⟨phys, keys, time, dt⟩ [] entities target [] with
  | LoopResult.finished processed tg spawned =>
    ⟨processed.filter keepEntity ++ spawned, tg, Outcome.ok⟩
  | LoopResult.aborted Abort.reset _ _ => ⟨entities, none, Outcome.reset⟩
  | LoopResult.aborted Abort.complete _ tg => ⟨entities, tg, Outcome.complete⟩

/-- One frame of `gameLoop` (lines 366-636): compute `deltaTime` from the rAF
timestamps (line 375) and run the entity loop. -/
def frameStep (phys : GlobalPhysics) (keys : Keys) (time lastTime : ℝ)
    (target : Option ℝ) (entities : List GameEntity) : FrameResult :=
  frameStepDt phys keys time (computeDeltaTime (time - lastTime) phys.timeScale)
    target entities

/-- The frame loop as the spec describes it (§4.4 "Iterates entities using a
snapshot of the previous frame's positions for all collision queries within
that frame"): identical per-entity processing, but every entity is resolved
against the immutable start-of-frame list `snap`. -/
def frameLoopSnapshot (ctx : Ctx) (snap : List GameEntity) (done : List GameEntity)
    (todo : List GameEntity) (target : Option ℝ) (spawned : List GameEntity) : LoopResult :=
  match todo with
  | [] => LoopResult.finished done target spawned
  | e :: rest =>
    match processOne ctx snap target e with
    | Except.error a => LoopResult.aborted a.1 done a.2
    | Except.ok r =>
      frameLoopSnapshot ctx snap (done ++ [r.ent]) rest r.target (spawned ++ r.spawned)

/-- One frame under the spec's snapshot semantics, for comparison with
`frameStepDt`. -/
def frameStepSnapshotDt (phys : GlobalPhysics) (keys : Keys) (time dt : ℝ)
    (target : Option ℝ) (entities : List GameEntity) : FrameResult :=
  match frameLoopSnapshot ⟨phys, keys, time, dt⟩ entities [] entities target [] with
  | LoopResult.finished processed tg spawned =>
    ⟨processed.filter keepEntity ++ spawned, tg, Outcome.ok⟩
  | LoopResult.aborted Abort.reset _ _ => ⟨entities, none, Outcome.reset⟩
  | LoopResult.aborted Abort.complete _ tg => ⟨entities, tg, Outcome.complete⟩

/-- One frame under the spec's snapshot semantics with the `deltaTime`
computation of line 375. -/
def frameStepSnapshot (phys : GlobalPhysics) (keys : Keys) (time lastTime : ℝ)
    (target : Option ℝ) (entities : List GameEntity) : FrameResult :=
  frameStepSnapshotDt phys keys time (computeDeltaTime (time - lastTime) phys.timeScale)
    target entities

/-- A blueprint entity template, with the optionality `setupLevel` defends
against: `velocity: e.velocity || {x:0,y:0}`,
`gravityScale: e.gravityScale !== undefined ? e.gravityScale : 1`,
`behavior: e.behavior || 'DEFAULT'` (lines 296-302). -/
structure EntityTemplate where
  id : EntId
  type : EntityType
  pos : Vector2
  size : Vector2
  velocity : Option Vector2
  isStatic : Bool
  isSolid : Bool
  isVisible : Bool
  isDeadly : Bool
  gravityScale : Option ℝ
  behavior : Option Behavior
  patrolStart : Option Vector2
  patrolEnd : Option Vector2
  patrolSpeed : Option ℝ
  fireRate : Option ℝ
  projectileSpeed : Option ℝ

/-- `types.ts` `LevelData`, restricted to the fields the engine reads
(`id`, `name`, `description` are decorative). -/
structure LevelData where
  startPos : Vector2
  entities : List EntityTemplate
  physics : GlobalPhysics

/-- The runtime entity built from one blueprint template by `setupLevel`
(lines 296-302): defaults filled in, `origin` set to a copy of the blueprint
position, `lastFireTime` initially absent. -/
def instantiateTemplate (t : EntityTemplate) : GameEntity :=
  { id := t.id
    type := t.type
    pos := t.pos
    size := t.size
    velocity := t.velocity.getD ⟨0, 0⟩
    isStatic := t.isStatic
    isSolid := t.isSolid
    isVisible := t.isVisible
    isDeadly := t.isDeadly
    gravityScale := some (t.gravityScale.getD 1)
    behavior := t.behavior.getD Behavior.default
    patrolStart := t.patrolStart
    patrolEnd := t.patrolEnd
    patrolSpeed := t.patrolSpeed
    fireRate := t.fireRate
    projectileSpeed := t.projectileSpeed
    lastFireTime := none
    origin := some t.pos }

/-- The player record `setupLevel` builds (lines 281-294): id `player_1`
(modelled as named id `0`), `PLAYER_SIZE` `{32, 32}` from `constants.ts`,
spawned at a copy of the blueprint's `startPos`. -/
def mkPlayer (startPos : Vector2) : GameEntity :=
  { id := EntId.named 0
    type := EntityType.player
    pos := startPos
    size := ⟨32, 32⟩
    velocity := ⟨0, 0⟩
    isStatic := false
    isSolid := true
    isVisible := true
    isDeadly := false
    gravityScale := some 1
    behavior := Behavior.default
    patrolStart := none, patrolEnd := none, patrolSpeed := none
    fireRate := none, projectileSpeed := none, lastFireTime := none
    origin := none }

/-- `setupLevel` (lines 280-312): instantiate every blueprint entity in order
and push the player last.  The source performs no validation of any kind: no
check of `startPos`, no check of entity sizes; every blueprint is loaded. -/
def setupLevel (level : LevelData) : List GameEntity :=
  level.entities.map instantiateTemplate ++ [mkPlayer level.startPos]

/-! ### Reference-semantics model of entity positions

`setupLevel` copies blueprint entities with a spread (`{ ...e }`, line 297),
which copies the `pos` *reference*: the runtime entity and the blueprint
template share one position object (`startPos` and `origin`, by contrast, are
deep-copied at lines 285 and 300).  The loop then mutates that shared object in
place (`ent.pos.x = nextX` at line 558 and `ent.pos.y = nextY` at line 595; the
`pos` reference itself is never replaced).  To express this sharing we give
positions an explicit cell store: a heap of `Vector2` cells indexed by `ℕ`,
with blueprint templates and runtime entities holding cell indices.  A frame
materializes each entity's position from its cell, runs the (value-level)
frame loop, and writes each finalized entity's position back through its cell
— which is observationally the in-place mutation of the source for entities
with distinct cells.  (On an aborted frame only the entities finalized before
the abort are written back; the partially-updated aborting entity is not
modelled, which no theorem below relies on.) -/

/-- A store of position cells. -/
def Heap : Type := ℕ → Vector2

/-- A blueprint template whose position lives in a heap cell. -/
structure TemplateRef where
  template : EntityTemplate
  posRef : ℕ

/-- A runtime entity whose position lives in a heap cell. -/
structure HEntity where
  ent : GameEntity
  posRef : ℕ

/-- A blueprint whose entity positions live in heap cells. -/
structure LevelDataRef where
  startPos : Vector2
  entities : List TemplateRef

/-- `setupLevel` under reference semantics: the player's position is a fresh
cell (`playerCell`, assumed unused) holding a copy of `startPos`; each
blueprint entity keeps its template's cell (`{ ...e }` copies the reference). -/
def setupLevelRef (heap : Heap) (level : LevelDataRef) (playerCell : ℕ) :
    Heap × List HEntity :=
  (Function.update heap playerCell level.startPos,
   (level.entities.map fun tr =>
     HEntity.mk (instantiateTemplate { tr.template with pos := heap tr.posRef }) tr.posRef)
   ++ [HEntity.mk (mkPlayer level.startPos) playerCell])

/-- Read every entity's position out of its cell. -/
def materialize (heap : Heap) (hs : List HEntity) : List GameEntity :=
  hs.map fun h => { h.ent with pos := heap h.posRef }

/-- Write finalized positions back through the cells (the lines 558/595
in-place writes, which reach the blueprint through the shared reference). -/
def commitPos (heap : Heap) : List ℕ → List GameEntity → Heap
  | r :: rs, e :: rest => commitPos (Function.update heap r e.pos) rs rest
  | _, _ => heap

/-- One frame under reference semantics: materialize, run the frame loop,
write the finalized positions back through the shared cells. -/
def frameStepRefDt (phys : GlobalPhysics) (keys : Keys) (time dt : ℝ)
    (target : Option ℝ) (heap : Heap) (hs : List HEntity) : Heap :=
  match frameLoop ⟨phys, keys, time, dt⟩ [] (materialize heap hs) target [] with
  | LoopResult.finished processed _ _ => commitPos heap (hs.map HEntity.posRef) processed
  | LoopResult.aborted _ done _ => commitPos heap (hs.map HEntity.posRef) done

/-! ### Concrete scenarios used by the theorems below -/

/-- No key held. -/
def keys0 : Keys := ⟨false, false, false⟩

/-- Right held only. -/
def keysRightC6 : Keys := ⟨false, true, false⟩

/-- Physics with gravity dialed to `0` (friction and timeScale at the
`constants.ts` defaults), so that vertical motion stays out of the scenarios
that are about horizontal resolution. -/
def physFrictionOnly : GlobalPhysics := ⟨0, 0.85, 1⟩

/-- The `constants.ts` `DEFAULT_PHYSICS` (gravity 0.5, friction 0.85,
timeScale 1). -/
def physDefault : GlobalPhysics := ⟨0.5, 0.85, 1⟩

/-- C1 scenario, entity processed first: a solid non-static mover at
`(100, 0)`, size `50 × 50`, moving right at `100` units/s. -/
def entA : GameEntity :=
  { id := EntId.named 1, type := EntityType.enemy
    pos := ⟨100, 0⟩, size := ⟨50, 50⟩, velocity := ⟨100, 0⟩
    isStatic := false, isSolid := true, isVisible := true, isDeadly := false
    gravityScale := some 0, behavior := Behavior.default
    patrolStart := none, patrolEnd := none, patrolSpeed := none
    fireRate := none, projectileSpeed := none, lastFireTime := none
    origin := none }

/-- C1 scenario, entity processed second: a solid non-static mover at
`(158, 0)`, size `10 × 50`, moving left at `100` units/s.  One frame at
`deltaTime = 0.05` takes it to `x = 153`, which overlaps A's *updated* span
`105..155` but not A's start-of-frame span `100..150`. -/
def entB : GameEntity :=
  { id := EntId.named 2, type := EntityType.enemy
    pos := ⟨158, 0⟩, size := ⟨10, 50⟩, velocity := ⟨-100, 0⟩
    isStatic := false, isSolid := true, isVisible := true, isDeadly := false
    gravityScale := some 0, behavior := Behavior.default
    patrolStart := none, patrolEnd := none, patrolSpeed := none
    fireRate := none, projectileSpeed := none, lastFireTime := none
    origin := none }

/-- C2 scenario: a blueprint PATROL enemy authored at `(0, 0)` (heap cell 0),
patrolling from `(0, 0)` to `(100, 0)` at speed `100`, gravity-exempt. -/
def enemyTemplateC2 : EntityTemplate :=
  { id := EntId.named 1, type := EntityType.enemy
    pos := ⟨0, 0⟩, size := ⟨30, 30⟩, velocity := none
    isStatic := false, isSolid := false, isVisible := true, isDeadly := false
    gravityScale := some 0, behavior := some Behavior.patrol
    patrolStart := some ⟨0, 0⟩, patrolEnd := some ⟨100, 0⟩, patrolSpeed := some 100
    fireRate := none, projectileSpeed := none }

/-- C2 scenario blueprint: the patrol enemy (its position in heap cell 0) and
a player start far away at `(700, 0)`. -/
def levelC2 : LevelDataRef := ⟨⟨700, 0⟩, [⟨enemyTemplateC2, 0⟩]⟩

/-- C2 scenario initial heap: every cell `(0, 0)`; in particular the
blueprint enemy's cell 0 holds its authored position `(0, 0)`. -/
def heap0C2 : Heap := fun _ => ⟨0, 0⟩

/-- C2 scenario: the runtime patrol enemy as materialized at level setup
(blueprint defaults filled in, position read from heap cell 0). -/
def enemyEntC2 : GameEntity :=
  { id := EntId.named 1, type := EntityType.enemy
    pos := ⟨0, 0⟩, size := ⟨30, 30⟩, velocity := ⟨0, 0⟩
    isStatic := false, isSolid := false, isVisible := true, isDeadly := false
    gravityScale := some 0, behavior := Behavior.patrol
    patrolStart := some ⟨0, 0⟩, patrolEnd := some ⟨100, 0⟩, patrolSpeed := some 100
    fireRate := none, projectileSpeed := none, lastFireTime := none
    origin := some ⟨0, 0⟩ }

/-- C2 scenario: the runtime player as materialized at level setup. -/
def playerEntC2 : GameEntity := mkPlayer ⟨700, 0⟩

/-- C3 scenario: a static turret at `(0, 0)`, size `30 × 30` (center
`(15, 15)`), `fireRate` 2000 ms, never fired. -/
def turretC3 : GameEntity :=
  { id := EntId.named 1, type := EntityType.enemy
    pos := ⟨0, 0⟩, size := ⟨30, 30⟩, velocity := ⟨0, 0⟩
    isStatic := true, isSolid := true, isVisible := true, isDeadly := false
    gravityScale := some 1, behavior := Behavior.turret
    patrolStart := none, patrolEnd := none, patrolSpeed := none
    fireRate := some 2000, projectileSpeed := none, lastFireTime := none
    origin := none }

/-- C3 scenario: a visible player whose center `(15, 15)` coincides with the
turret center (distance 0). -/
def playerC3 : GameEntity := mkPlayer ⟨-1, -1⟩

/-- C4 witness: a stopped patroller at `(0, 0)` with path `(0,0) → (100,0)`
and speed `150`. -/
def patrolC4 : GameEntity :=
  { id := EntId.named 1, type := EntityType.enemy
    pos := ⟨0, 0⟩, size := ⟨30, 30⟩, velocity := ⟨0, 0⟩
    isStatic := false, isSolid := false, isVisible := true, isDeadly := true
    gravityScale := some 0, behavior := Behavior.patrol
    patrolStart := some ⟨0, 0⟩, patrolEnd := some ⟨100, 0⟩, patrolSpeed := some 150
    fireRate := none, projectileSpeed := none, lastFireTime := none
    origin := none }

/-- C5 scenario: an *invisible* Exit at `(50, 400)`, size `50 × 100`. -/
def exitC5 : GameEntity :=
  { id := EntId.named 1, type := EntityType.exit
    pos := ⟨50, 400⟩, size := ⟨50, 100⟩, velocity := ⟨0, 0⟩
    isStatic := true, isSolid := false, isVisible := false, isDeadly := false
    gravityScale := some 1, behavior := Behavior.default
    patrolStart := none, patrolEnd := none, patrolSpeed := none
    fireRate := none, projectileSpeed := none, lastFireTime := none
    origin := none }

/-- C5 scenario: the player standing at `(50, 400)`, overlapping the
invisible exit. -/
def playerC5 : GameEntity := mkPlayer ⟨50, 400⟩

/-- C6 witness: a player-typed entity with `velocity.x = 10`. -/
def runnerC6 : GameEntity :=
  { mkPlayer ⟨100, 0⟩ with velocity := ⟨10, 0⟩ }

/-- C8 witness: the unit-style square at the origin. -/
def squareL : GameEntity :=
  { id := EntId.named 1, type := EntityType.wall
    pos := ⟨0, 0⟩, size := ⟨10, 10⟩, velocity := ⟨0, 0⟩
    isStatic := true, isSolid := true, isVisible := true, isDeadly := false
    gravityScale := some 1, behavior := Behavior.default
    patrolStart := none, patrolEnd := none, patrolSpeed := none
    fireRate := none, projectileSpeed := none, lastFireTime := none
    origin := none }

/-- C8 witness: a square exactly touching `squareL` along its right edge
(`0 + 10 = 10`). -/
def squareR : GameEntity :=
  { squareL with id := EntId.named 2, pos := ⟨10, 0⟩ }

/-- C9 scenario: a blueprint wall template with `size.x = 0` (a malformed,
zero-size entity per the spec). -/
def zeroSizeTemplate : EntityTemplate :=
  { id := EntId.named 1, type := EntityType.wall
    pos := ⟨500, 100⟩, size := ⟨0, 40⟩, velocity := none
    isStatic := true, isSolid := true, isVisible := true, isDeadly := false
    gravityScale := none, behavior := none
    patrolStart := none, patrolEnd := none, patrolSpeed := none
    fireRate := none, projectileSpeed := none }

/-- C9 scenario: a blueprint containing the zero-size entity. -/
def badLevelC9 : LevelData := ⟨⟨50, 400⟩, [zeroSizeTemplate], physFrictionOnly⟩

/-! ## Helper lemmas -/

lemma sqrt10000 : Real.sqrt 10000 = 100 := by
  rw [show (10000 : ℝ) = 100 ^ 2 by norm_num, Real.sqrt_sq (by norm_num)]

lemma collideXOne_invisible (rectX : GameEntity) (st : XPassState) (o : GameEntity)
    (h : o.isVisible = false) : collideXOne rectX st o = Except.ok st := by
  unfold collideXOne
  by_cases h1 : o.id = st.ent.id
  · rw [if_pos h1]
  · rw [if_neg h1]
    by_cases h2 : o.isSolid = false ∧ o.isDeadly = false
    · rw [if_pos h2]
    · rw [if_neg h2, if_pos h]

lemma collideYOne_invisible (rectY : GameEntity) (st : YPassState) (o : GameEntity)
    (h : o.isVisible = false) : collideYOne rectY st o = Except.ok st := by
  unfold collideYOne
  by_cases h1 : o.id = st.ent.id
  · rw [if_pos h1]
  · rw [if_neg h1]
    by_cases h2 : o.isSolid = false ∧ o.isDeadly = false
    · rw [if_pos h2]
    · rw [if_neg h2, if_pos h]

lemma turretUpdate_no_spawn_eq (now : ℝ) (all : List GameEntity) (ent : GameEntity)
    (h : (turretUpdate now all ent).spawned = []) :
    (turretUpdate now all ent).ent = ent := by
  unfold turretUpdate at *
  by_cases h1 : ent.behavior = Behavior.turret ∧ truthyOpt ent.fireRate
  · rw [if_pos h1] at h ⊢
    cases hfd : turretFireData all ent with
    | none => simp [hfd]
    | some fv =>
      simp only [hfd] at h ⊢
      by_cases h2 : fireArmed now ent
      · rw [if_pos h2] at h; simp at h
      · rw [if_neg h2]
  · rw [if_neg h1]

lemma turretUpdate_fire (now : ℝ) (all : List GameEntity) (ent : GameEntity)
    (h : (turretUpdate now all ent).spawned ≠ []) :
    fireArmed now ent ∧
    (turretUpdate now all ent).ent.lastFireTime = some now ∧
    (turretUpdate now all ent).ent.fireRate = ent.fireRate := by
  unfold turretUpdate at *
  by_cases h1 : ent.behavior = Behavior.turret ∧ truthyOpt ent.fireRate
  · rw [if_pos h1] at h ⊢
    cases hfd : turretFireData all ent with
    | none => simp [hfd] at h
    | some fv =>
      simp only [hfd] at h ⊢
      by_cases h2 : fireArmed now ent
      · rw [if_pos h2]; exact ⟨h2, rfl, rfl⟩
      · rw [if_neg h2] at h; simp at h
  · rw [if_neg h1] at h; simp at h

lemma turretUpdate_noFireData (now : ℝ) (all : List GameEntity) (ent : GameEntity)
    (h : turretFireData all ent = none) :
    turretUpdate now all ent = ⟨ent, []⟩ := by
  unfold turretUpdate
  by_cases h1 : ent.behavior = Behavior.turret ∧ truthyOpt ent.fireRate
  · rw [if_pos h1, h]
  · rw [if_neg h1]

lemma turretRun_gaps (all : List GameEntity) (fr : ℝ) (hfr : 0 < fr) :
    ∀ (times : List ℝ) (ent : GameEntity), ent.fireRate = some fr →
      (∀ t ∈ times, 0 < t) →
      (ent.lastFireTime = none →
         List.Pairwise (fun a b => fr < b - a) (turretRun all ent times)) ∧
      (∀ t0, ent.lastFireTime = some t0 → 0 < t0 →
         List.Pairwise (fun a b => fr < b - a) (turretRun all ent times) ∧
         ∀ f ∈ turretRun all ent times, fr < f - t0) := by
  intro times
  induction times with
  | nil => intro ent _ _; simp [turretRun]
  | cons t ts ih =>
    intro ent hrate htimes
    have hpos : 0 < t := htimes t (by simp)
    have hpos' : ∀ u ∈ ts, 0 < u := fun u hu => htimes u (by simp [hu])
    by_cases hsp : (turretUpdate t all ent).spawned = []
    · have hkeep := turretUpdate_no_spawn_eq t all ent hsp
      have hrun : turretRun all ent (t :: ts) = turretRun all ent ts := by
        simp [turretRun, hsp, hkeep]
      rw [hrun]
      exact ih ent hrate hpos'
    · obtain ⟨harm, hlast, hfr'⟩ := turretUpdate_fire t all ent hsp
      have hrun : turretRun all ent (t :: ts) =
          t :: turretRun all (turretUpdate t all ent).ent ts := by
        simp [turretRun, hsp]
      have ihres := (ih (turretUpdate t all ent).ent (by rw [hfr', hrate]) hpos').2
        t hlast hpos
      rw [hrun]
      have hpw : List.Pairwise (fun a b => fr < b - a)
          (t :: turretRun all (turretUpdate t all ent).ent ts) :=
        List.Pairwise.cons (fun f hf => ihres.2 f hf) ihres.1
      refine ⟨fun _ => hpw, fun t0 ht0 ht0pos => ⟨hpw, ?_⟩⟩
      intro f hf
      rcases List.mem_cons.mp hf with hfe | hfr2
      · subst hfe
        have harm' := harm
        unfold fireArmed at harm'
        rw [ht0] at harm'
        rcases harm' with h0 | hgt
        · exact absurd h0 (ne_of_gt ht0pos)
        · rw [hrate] at hgt
          simpa using hgt
      · have h1 : fr < f - t := ihres.2 f hfr2
        have h2 : fr < t - t0 := by
          have harm' := harm
          unfold fireArmed at harm'
          rw [ht0] at harm'
          rcases harm' with h0 | hgt
          · exact absurd h0 (ne_of_gt ht0pos)
          · rw [hrate] at hgt; simpa using hgt
        linarith

lemma frameC1_entities_eval :
    (frameStep physFrictionOnly keys0 50 0 none [entA, entB]).entities =
      [{ entA with pos := ⟨105, 0⟩ },
       { entB with pos := ⟨158, 0⟩, velocity := ⟨0, 0⟩ }] := by
  norm_num +decide [frameStep, frameStepDt, computeDeltaTime, frameLoop, processOne,
    patrolUpdate, turretUpdate, applyGravity, playerControl,
    collideXLoop, collideXOne, collideYLoop, collideYOne, checkCollision,
    CANVAS_WIDTH, CANVAS_HEIGHT, entA, entB, physFrictionOnly, keys0,
    findPlayer, truthyOpt, entCenter, keepEntity, List.find?]

lemma frameC1_snapshot_entities_eval :
    (frameStepSnapshot physFrictionOnly keys0 50 0 none [entA, entB]).entities =
      [{ entA with pos := ⟨105, 0⟩ },
       { entB with pos := ⟨153, 0⟩ }] := by
  norm_num +decide [frameStepSnapshot, frameStepSnapshotDt, computeDeltaTime,
    frameLoopSnapshot, processOne,
    patrolUpdate, turretUpdate, applyGravity, playerControl,
    collideXLoop, collideXOne, collideYLoop, collideYOne, checkCollision,
    CANVAS_WIDTH, CANVAS_HEIGHT, entA, entB, physFrictionOnly, keys0,
    findPlayer, truthyOpt, entCenter, keepEntity, List.find?]

/-! ## Claim theorems -/

/-- Claim C1 (amended).  Within one frame the entities are processed
sequentially in place, not against a start-of-frame snapshot: entity B (second
in order, moving left from `x = 158` to a tentative `x = 153`) is blocked —
`velocity.x` zeroed and position reverted to `158` — by entity A's
*already-updated* span `105..155`, even though B's tentative rectangle does not
overlap A's start-of-frame rectangle `100..150` at all.  So a collision query
observes an earlier-processed entity at its updated position; only entities
processed later are observed at their start-of-frame positions. -/
theorem C1_sequential_in_place_iteration :
    (frameStep physFrictionOnly keys0 50 0 none [entA, entB]).entities =
      [{ entA with pos := ⟨105, 0⟩ },
       { entB with pos := ⟨158, 0⟩, velocity := ⟨0, 0⟩ }] ∧
    ¬ checkCollision { entB with pos := ⟨153, 0⟩ } entA := by
  refine ⟨frameC1_entities_eval, ?_⟩
  norm_num [checkCollision, entA, entB]

/-- Claim C1 (counterexample).  The frame step of the code differs from the
spec's snapshot-semantics frame step (`frameStepSnapshot`, every collision
query answered from the start-of-frame list) on a concrete two-entity world:
the code blocks entity B at `x = 158` with zero velocity, the snapshot
semantics lets it move to `x = 153`. -/
theorem C1_snapshot_counterexample :
    (frameStep physFrictionOnly keys0 50 0 none [entA, entB]).entities ≠
      (frameStepSnapshot physFrictionOnly keys0 50 0 none [entA, entB]).entities := by
  rw [frameC1_entities_eval, frameC1_snapshot_entities_eval]
  intro h
  have h2 := List.head?_eq_head (l := [{ entA with pos := ⟨105, 0⟩ },
    { entB with pos := ⟨158, 0⟩, velocity := ⟨0, 0⟩ }])
  simp only [List.cons.injEq] at h
  have := congrArg (fun e => e.pos.x) h.2.1
  norm_num at this

lemma setupC2_snd :
    (setupLevelRef heap0C2 levelC2 1).2 =
      [⟨enemyEntC2, 0⟩, ⟨playerEntC2, 1⟩] := by
  norm_num +decide [setupLevelRef, levelC2, enemyTemplateC2, instantiateTemplate,
    heap0C2, mkPlayer, enemyEntC2, playerEntC2]

lemma matC2 :
    materialize (setupLevelRef heap0C2 levelC2 1).1 [⟨enemyEntC2, 0⟩, ⟨playerEntC2, 1⟩] =
      [enemyEntC2, playerEntC2] := by
  norm_num +decide [materialize, setupLevelRef, levelC2, heap0C2, mkPlayer,
    Function.update_apply, enemyEntC2, playerEntC2]

set_option maxHeartbeats 2000000 in
lemma loopC2 :
    frameLoop ⟨physDefault, keys0, 50, 0.05⟩ [] [enemyEntC2, playerEntC2] none [] =
      LoopResult.finished
        [{ enemyEntC2 with pos := ⟨5, 0⟩, velocity := ⟨100, 0⟩ },
         { playerEntC2 with pos := ⟨700, 2.5⟩, velocity := ⟨0, 50⟩ }] none [] := by
  norm_num +decide [frameLoop, processOne,
    patrolUpdate, patrolSpeedOf, turretUpdate, turretFireData, fireArmed,
    applyGravity, playerControl,
    collideXLoop, collideXOne, collideYLoop, collideYOne, checkCollision,
    CANVAS_WIDTH, CANVAS_HEIGHT, physDefault, keys0, findPlayer, truthyOpt,
    entCenter, List.find?, sqrt10000, Real.sqrt_zero, enemyEntC2, playerEntC2,
    mkPlayer]

lemma heapC2_after_frame :
    frameStepRefDt physDefault keys0 50 0.05 none
      (setupLevelRef heap0C2 levelC2 1).1 (setupLevelRef heap0C2 levelC2 1).2 0 =
      ⟨5, 0⟩ := by
  rw [frameStepRefDt, setupC2_snd, matC2, loopC2]
  norm_num [commitPos, Function.update_apply]

/-- Claim C2 (code bug).  `setupLevel` copies blueprint entities with a spread
(`{ ...e }`, line 297), so the runtime entity and the blueprint template share
one `pos` object, and the frame loop mutates it in place (lines 558/595).
Under the reference-semantics model: the blueprint patrol enemy's position
cell holds its authored `(0, 0)` before play, and after a single frame
(`deltaTime = 0.05`, during which the enemy patrol-walks 5 units) the
*blueprint's* cell holds `(5, 0)` — and a reset (`setupLevel` again) therefore
re-instantiates the enemy at `(5, 0)`, not at its authored position. -/
theorem C2_blueprint_pos_mutated_by_frame :
    heap0C2 0 = ⟨0, 0⟩ ∧
    frameStepRefDt physDefault keys0 50 0.05 none
      (setupLevelRef heap0C2 levelC2 1).1 (setupLevelRef heap0C2 levelC2 1).2 0 =
      ⟨5, 0⟩ ∧
    ∀ hp : Heap, ((setupLevelRef hp levelC2 1).2.head?.map fun he => he.ent.pos) =
      some (hp 0) := by
  refine ⟨rfl, heapC2_after_frame, fun hp => ?_⟩
  simp [setupLevelRef, levelC2, instantiateTemplate]

/-- Claim C3 (amended).  A turret never fires when the player lookup finds no
player, when the found player is invisible, or when the center distance is 500
or more; a fire happens only when the turret is armed
(`lastFireTime` unset — with a recorded time of exactly `0` also counting as
unset, the JS falsy check — or `now - lastFireTime > fireRate`) and sets
`lastFireTime = now`; and over any sequence of frames whose timestamps are all
strictly positive, any two recorded fire times of a fresh turret with
`fireRate = fr > 0` differ by more than `fr`. -/
theorem C3_turret_gating :
    (∀ (now : ℝ) (all : List GameEntity) (ent : GameEntity),
       findPlayer all = none → turretUpdate now all ent = ⟨ent, []⟩) ∧
    (∀ (now : ℝ) (all : List GameEntity) (ent p : GameEntity),
       findPlayer all = some p → p.isVisible = false →
       turretUpdate now all ent = ⟨ent, []⟩) ∧
    (∀ (now : ℝ) (all : List GameEntity) (ent p : GameEntity),
       findPlayer all = some p →
       500 ≤ Real.sqrt
         (((entCenter p).x - (entCenter ent).x) * ((entCenter p).x - (entCenter ent).x) +
          ((entCenter p).y - (entCenter ent).y) * ((entCenter p).y - (entCenter ent).y)) →
       turretUpdate now all ent = ⟨ent, []⟩) ∧
    (∀ (now : ℝ) (all : List GameEntity) (ent : GameEntity),
       (turretUpdate now all ent).spawned ≠ [] →
       fireArmed now ent ∧ (turretUpdate now all ent).ent.lastFireTime = some now) ∧
    (∀ (all : List GameEntity) (fr : ℝ) (ent : GameEntity) (times : List ℝ),
       0 < fr → ent.fireRate = some fr → ent.lastFireTime = none →
       (∀ t ∈ times, 0 < t) →
       List.Pairwise (fun a b => fr < b - a) (turretRun all ent times)) := by
  refine ⟨?_, ?_, ?_, ?_, ?_⟩
  · intro now all ent h
    exact turretUpdate_noFireData now all ent (by simp [turretFireData, h])
  · intro now all ent p h hv
    exact turretUpdate_noFireData now all ent (by simp [turretFireData, h, hv])
  · intro now all ent p h hd
    refine turretUpdate_noFireData now all ent ?_
    simp only [turretFireData, h]
    by_cases hv : p.isVisible = true
    · rw [if_pos hv, if_neg (not_lt.mpr hd)]
    · rw [if_neg hv]
  · intro now all ent h
    exact ⟨(turretUpdate_fire now all ent h).1, (turretUpdate_fire now all ent h).2.1⟩
  · intro all fr ent times hfr hrate hnone htimes
    exact (turretRun_gaps all fr hfr times ent hrate htimes).1 hnone

/-- Claim C3 (witness): a turret with no player in context does not fire and
is unchanged, and a fresh `fireRate = 2000` turret run over the single
timestamp `5` records a gap-respecting fire list. -/
theorem C3_turret_gating_witness :
    turretUpdate 7 [] turretC3 = ⟨turretC3, []⟩ ∧
    List.Pairwise (fun a b => (2000 : ℝ) < b - a) (turretRun [] turretC3 [5]) := by
  refine ⟨C3_turret_gating.1 7 [] turretC3 rfl, ?_⟩
  refine C3_turret_gating.2.2.2.2 [] 2000 turretC3 [5] (by norm_num) rfl rfl ?_
  intro t ht
  simp only [List.mem_singleton] at ht
  subst ht
  norm_num

/-- Claim C3 (counterexample).  With the visible player centered exactly on
the turret (distance 0) and `fireRate = 2000`, the turret fires at timestamp
`0` (spawning one projectile and recording `lastFireTime = 0`) and fires again
at timestamp `1000`: `lastFireTime = 0` is falsy, so the second fire bypasses
the cooldown — two projectiles within a 2000 ms window. -/
theorem C3_double_fire_counterexample :
    (turretUpdate 0 [turretC3, playerC3] turretC3).spawned.length = 1 ∧
    (turretUpdate 0 [turretC3, playerC3] turretC3).ent.lastFireTime = some 0 ∧
    (turretUpdate 1000 [turretC3, playerC3]
        (turretUpdate 0 [turretC3, playerC3] turretC3).ent).spawned.length = 1 ∧
    (1000 : ℝ) - 0 < 2000 := by
  refine ⟨?_, ?_, ?_, by norm_num⟩ <;>
    norm_num +decide [turretUpdate, turretFireData, fireArmed, findPlayer,
      truthyOpt, entCenter, turretC3, playerC3, mkPlayer, List.find?,
      Real.sqrt_zero]

/-- Claim C4 (confirmed).  For a non-static PATROL entity with
`patrolStart = s`, `patrolEnd = e`, a set nonzero `patrolSpeed = sp` and path
`P = e - s`: when `|P| = 0` the update leaves the entity unchanged; when
`|P| > 0`, a zero velocity is initialized to `unit(P) * sp`; else if
`velocity · P ≥ 0` and the projected progress is `≥ 1` the velocity becomes
`-unit(P) * sp`; else if `velocity · P < 0` and the progress is `≤ 0` it
becomes `unit(P) * sp`; otherwise the entity is unchanged. -/
theorem C4_patrol_reversal (ent : GameEntity) (s e : Vector2) (sp : ℝ)
    (hb : ent.behavior = Behavior.patrol) (hst : ent.isStatic = false)
    (hps : ent.patrolStart = some s) (hpe : ent.patrolEnd = some e)
    (hsp : ent.patrolSpeed = some sp) (hsp0 : sp ≠ 0) :
    (Real.sqrt ((e.x - s.x) ^ 2 + (e.y - s.y) ^ 2) = 0 → patrolUpdate ent = ent) ∧
    (0 < Real.sqrt ((e.x - s.x) ^ 2 + (e.y - s.y) ^ 2) →
      ((ent.velocity.x = 0 ∧ ent.velocity.y = 0 →
         patrolUpdate ent = { ent with velocity :=
           ⟨(e.x - s.x) / Real.sqrt ((e.x - s.x) ^ 2 + (e.y - s.y) ^ 2) * sp,
            (e.y - s.y) / Real.sqrt ((e.x - s.x) ^ 2 + (e.y - s.y) ^ 2) * sp⟩ }) ∧
       (¬(ent.velocity.x = 0 ∧ ent.velocity.y = 0) →
         0 ≤ ent.velocity.x * (e.x - s.x) + ent.velocity.y * (e.y - s.y) →
         1 ≤ ((ent.pos.x - s.x) * (e.x - s.x) + (ent.pos.y - s.y) * (e.y - s.y)) /
             (Real.sqrt ((e.x - s.x) ^ 2 + (e.y - s.y) ^ 2) *
              Real.sqrt ((e.x - s.x) ^ 2 + (e.y - s.y) ^ 2)) →
         patrolUpdate ent = { ent with velocity :=
           ⟨-((e.x - s.x) / Real.sqrt ((e.x - s.x) ^ 2 + (e.y - s.y) ^ 2)) * sp,
            -((e.y - s.y) / Real.sqrt ((e.x - s.x) ^ 2 + (e.y - s.y) ^ 2)) * sp⟩ }) ∧
       (¬(ent.velocity.x = 0 ∧ ent.velocity.y = 0) →
         ent.velocity.x * (e.x - s.x) + ent.velocity.y * (e.y - s.y) < 0 →
         ((ent.pos.x - s.x) * (e.x - s.x) + (ent.pos.y - s.y) * (e.y - s.y)) /
             (Real.sqrt ((e.x - s.x) ^ 2 + (e.y - s.y) ^ 2) *
              Real.sqrt ((e.x - s.x) ^ 2 + (e.y - s.y) ^ 2)) ≤ 0 →
         patrolUpdate ent = { ent with velocity :=
           ⟨(e.x - s.x) / Real.sqrt ((e.x - s.x) ^ 2 + (e.y - s.y) ^ 2) * sp,
            (e.y - s.y) / Real.sqrt ((e.x - s.x) ^ 2 + (e.y - s.y) ^ 2) * sp⟩ }) ∧
       (¬(ent.velocity.x = 0 ∧ ent.velocity.y = 0) →
         ¬(0 ≤ ent.velocity.x * (e.x - s.x) + ent.velocity.y * (e.y - s.y) ∧
           1 ≤ ((ent.pos.x - s.x) * (e.x - s.x) + (ent.pos.y - s.y) * (e.y - s.y)) /
               (Real.sqrt ((e.x - s.x) ^ 2 + (e.y - s.y) ^ 2) *
                Real.sqrt ((e.x - s.x) ^ 2 + (e.y - s.y) ^ 2))) →
         ¬(ent.velocity.x * (e.x - s.x) + ent.velocity.y * (e.y - s.y) < 0 ∧
           ((ent.pos.x - s.x) * (e.x - s.x) + (ent.pos.y - s.y) * (e.y - s.y)) /
               (Real.sqrt ((e.x - s.x) ^ 2 + (e.y - s.y) ^ 2) *
                Real.sqrt ((e.x - s.x) ^ 2 + (e.y - s.y) ^ 2)) ≤ 0) →
         patrolUpdate ent = ent))) := by
  have hL : patrolSpeedOf ent = sp := by simp [patrolSpeedOf, hsp, hsp0]
  constructor
  · intro h0
    simp only [patrolUpdate, hps, hpe]
    rw [if_pos ⟨hb, hst⟩, if_neg (by rw [h0]; exact lt_irrefl 0)]
  · intro hlen
    refine ⟨?_, ?_, ?_, ?_⟩
    · intro hv
      simp only [patrolUpdate, hps, hpe, hL]
      rw [if_pos ⟨hb, hst⟩, if_pos hlen, if_pos hv]
    · intro hv h1 h2
      simp only [patrolUpdate, hps, hpe, hL]
      rw [if_pos ⟨hb, hst⟩, if_pos hlen, if_neg hv, if_pos ⟨h1, h2⟩]
    · intro hv h1 h2
      simp only [patrolUpdate, hps, hpe, hL]
      rw [if_pos ⟨hb, hst⟩, if_pos hlen, if_neg hv,
        if_neg (by rintro ⟨ha, _⟩; exact absurd ha (not_le.mpr h1)),
        if_pos ⟨not_le.mpr h1, h2⟩]
    · intro hv h1 h2
      simp only [patrolUpdate, hps, hpe, hL]
      rw [if_pos ⟨hb, hst⟩, if_pos hlen, if_neg hv, if_neg h1,
        if_neg (by rintro ⟨ha, hb2⟩; exact h2 ⟨not_le.mp ha, hb2⟩)]

/-- Claim C4 (witness): the stopped patroller on the path
`(0,0) → (100,0)` at speed 150 is initialized to velocity `(150, 0)`. -/
theorem C4_patrol_reversal_witness :
    patrolUpdate patrolC4 = { patrolC4 with velocity := ⟨150, 0⟩ } := by
  have hlen : (0 : ℝ) < Real.sqrt ((100 - 0) ^ 2 + (0 - 0) ^ 2) := by
    rw [show ((100 : ℝ) - 0) ^ 2 + ((0 : ℝ) - 0) ^ 2 = 10000 by norm_num, sqrt10000]
    norm_num
  have h := ((C4_patrol_reversal patrolC4 ⟨0, 0⟩ ⟨100, 0⟩ 150 rfl rfl rfl rfl rfl
    (by norm_num)).2 hlen).1 ⟨rfl, rfl⟩
  rw [h]
  norm_num [sqrt10000, patrolC4]

lemma frameC5_outcome :
    (frameStep physFrictionOnly keys0 50 0 none [exitC5, playerC5]).outcome =
      Outcome.complete := by
  norm_num +decide [frameStep, frameStepDt, computeDeltaTime, frameLoop, processOne,
    patrolUpdate, turretUpdate, turretFireData, fireArmed, applyGravity,
    playerControl, collideXLoop, collideXOne, collideYLoop, collideYOne,
    checkCollision, CANVAS_WIDTH, CANVAS_HEIGHT, exitC5, playerC5,
    physFrictionOnly, keys0, mkPlayer, findPlayer, truthyOpt, entCenter,
    List.find?]

/-- Claim C5 (amended).  Invisible entities are excluded from the per-axis
collision and hazard resolution: both the X and the Y collision loops are
unchanged when the invisible entities are removed from the iterated list.
(The player-reached-exit check, by contrast, does not consult the exit's
visibility; see the counterexample.) -/
theorem C5_invisible_excluded :
    (∀ (rectX : GameEntity) (st : XPassState) (others : List GameEntity),
       collideXLoop rectX st others =
         collideXLoop rectX st (others.filter fun o => o.isVisible)) ∧
    (∀ (rectY : GameEntity) (st : YPassState) (others : List GameEntity),
       collideYLoop rectY st others =
         collideYLoop rectY st (others.filter fun o => o.isVisible)) := by
  constructor
  · intro rectX st others
    induction others generalizing st with
    | nil => rfl
    | cons o rest ih =>
      by_cases hv : o.isVisible
      · rw [List.filter_cons_of_pos (by simpa using hv)]
        simp only [collideXLoop]
        cases h : collideXOne rectX st o with
        | error a => rfl
        | ok st2 => exact ih st2
      · rw [List.filter_cons_of_neg (by simpa using hv)]
        simp only [collideXLoop,
          collideXOne_invisible rectX st o (Bool.not_eq_true _ ▸ hv)]
        exact ih st
  · intro rectY st others
    induction others generalizing st with
    | nil => rfl
    | cons o rest ih =>
      by_cases hv : o.isVisible
      · rw [List.filter_cons_of_pos (by simpa using hv)]
        simp only [collideYLoop]
        cases h : collideYOne rectY st o with
        | error a => rfl
        | ok st2 => exact ih st2
      · rw [List.filter_cons_of_neg (by simpa using hv)]
        simp only [collideYLoop,
          collideYOne_invisible rectY st o (Bool.not_eq_true _ ▸ hv)]
        exact ih st

/-- Claim C5 (witness): an X-axis pass over the single invisible exit equals
the pass over the empty list. -/
theorem C5_invisible_excluded_witness :
    collideXLoop playerC5 ⟨playerC5, 50, none⟩ [exitC5] =
      collideXLoop playerC5 ⟨playerC5, 50, none⟩ [] := by
  have h := C5_invisible_excluded.1 playerC5 ⟨playerC5, 50, none⟩ [exitC5]
  simpa [exitC5] using h

/-- Claim C5 (counterexample).  A frame in which the player overlaps an
*invisible* Exit ends with the `complete` outcome: the exit lookup of the
player-exit check (line 616) does not test `isVisible`, so an invisible exit
is not excluded from that piece of collision logic. -/
theorem C5_invisible_exit_counterexample :
    (frameStep physFrictionOnly keys0 50 0 none [exitC5, playerC5]).outcome =
      Outcome.complete ∧
    exitC5.isVisible = false :=
  ⟨frameC5_outcome, rfl⟩

/-- Claim C6 (confirmed).  The player control law: with a horizontal key held,
`velocity.x` gains `±300 * dt` per held direction, the click-target is cleared
and friction multiplies the result in the same frame; with no manual input but
a pending click-target, within 5 units of the player center the target is
consumed and `velocity.x` snapped to 0, and otherwise `velocity.x` is set
directly to `sign(diff) * 200` with no friction; with neither, friction only.
`velocity.y` is never touched. -/
theorem C6_player_horizontal_control (phys : GlobalPhysics) (keys : Keys) (dt : ℝ)
    (target : Option ℝ) (ent : GameEntity) :
    ((keys.left = true ∨ keys.right = true) →
      (playerControl phys keys dt target ent).ent.velocity.x =
        (ent.velocity.x + (if keys.right = true then 300 * dt else 0) -
          (if keys.left = true then 300 * dt else 0)) * phys.friction ∧
      (playerControl phys keys dt target ent).target = none) ∧
    (keys.left = false → keys.right = false → ∀ tx, target = some tx →
      (|tx - (ent.pos.x + ent.size.x / 2)| < 5 →
        (playerControl phys keys dt target ent).ent.velocity.x = 0 ∧
        (playerControl phys keys dt target ent).target = none) ∧
      (¬ |tx - (ent.pos.x + ent.size.x / 2)| < 5 →
        (playerControl phys keys dt target ent).ent.velocity.x =
          Real.sign (tx - (ent.pos.x + ent.size.x / 2)) * 200 ∧
        (playerControl phys keys dt target ent).target = some tx)) ∧
    (keys.left = false → keys.right = false → target = none →
      (playerControl phys keys dt target ent).ent.velocity.x =
        ent.velocity.x * phys.friction ∧
      (playerControl phys keys dt target ent).target = none) ∧
    (playerControl phys keys dt target ent).ent.velocity.y = ent.velocity.y := by
  refine ⟨?_, ?_, ?_, ?_⟩
  · intro hman
    have hor : (keys.right = true ∨ keys.left = true) := hman.symm
    simp only [playerControl]
    rw [if_pos hor]
    constructor
    · cases hr : keys.right <;> cases hl : keys.left <;> simp [hr, hl]
    · rfl
  · intro hl hr tx htx
    simp only [playerControl, hl, hr, htx]
    constructor
    · intro h5
      rw [if_neg (by simp), if_pos h5]
      exact ⟨rfl, rfl⟩
    · intro h5
      rw [if_neg (by simp), if_neg h5]
      exact ⟨rfl, rfl⟩
  · intro hl hr htg
    simp only [playerControl, hl, hr, htg]
    rw [if_neg (by simp)]
    simp
  · simp only [playerControl]
    by_cases hm : keys.right = true ∨ keys.left = true
    · rw [if_pos hm]
    · rw [if_neg hm]
      cases target with
      | none => rfl
      | some tx =>
        dsimp only
        by_cases h5 : |tx - (ent.pos.x + ent.size.x / 2)| < 5
        · rw [if_pos h5]
        · rw [if_neg h5]

/-- Claim C6 (witness): with the right key held, `velocity.x = 10` becomes
`(10 + 300 * 0.05) * 0.85 = 21.25` and the pending click-target is cleared. -/
theorem C6_player_horizontal_control_witness :
    (playerControl physFrictionOnly keysRightC6 0.05 (some 400) runnerC6).ent.velocity.x
      = 21.25 ∧
    (playerControl physFrictionOnly keysRightC6 0.05 (some 400) runnerC6).target
      = none := by
  have h := (C6_player_horizontal_control physFrictionOnly keysRightC6 0.05
    (some 400) runnerC6).1 (Or.inr rfl)
  refine ⟨?_, h.2⟩
  rw [h.1]
  norm_num +decide [runnerC6, physFrictionOnly, keysRightC6, mkPlayer]

/-- Claim C7 (amended).  The effective per-frame time step equals
`min(rawDeltaTimeMs / 1000, 0.05) * timeScale`, and `frameStep` uses exactly
this value; for every `timeScale ≥ 0` the step never exceeds
`0.05 * timeScale` (for a negative `timeScale` the bound reverses; see the
counterexample). -/
theorem C7_delta_time_clamp :
    (∀ rawMs timeScale : ℝ,
       computeDeltaTime rawMs timeScale = min (rawMs / 1000) 0.05 * timeScale) ∧
    (∀ (phys : GlobalPhysics) (keys : Keys) (time lastTime : ℝ)
       (target : Option ℝ) (entities : List GameEntity),
       frameStep phys keys time lastTime target entities =
         frameStepDt phys keys time
           (computeDeltaTime (time - lastTime) phys.timeScale) target entities) ∧
    (∀ rawMs timeScale : ℝ, 0 ≤ timeScale →
       computeDeltaTime rawMs timeScale ≤ 0.05 * timeScale) := by
  refine ⟨fun _ _ => rfl, fun _ _ _ _ _ _ => rfl, fun rawMs ts hts => ?_⟩
  exact mul_le_mul_of_nonneg_right (min_le_right _ _) hts

/-- Claim C7 (witness): at `rawDeltaTimeMs = 100` and `timeScale = 1` the
computed step respects the `0.05 * timeScale` bound. -/
theorem C7_delta_time_clamp_witness :
    computeDeltaTime 100 1 ≤ 0.05 * 1 :=
  C7_delta_time_clamp.2.2 100 1 (by norm_num)

/-- Claim C7 (counterexample).  At `timeScale = -1` and a 10 ms raw delta the
step is `-0.01`, which exceeds `0.05 * timeScale = -0.05`: the bound of the
claim fails for negative time scales. -/
theorem C7_negative_timescale_counterexample :
    0.05 * (-1 : ℝ) < computeDeltaTime 10 (-1) := by
  norm_num [computeDeltaTime, min_def]

/-- Claim C8 (confirmed).  `checkCollision a b` holds exactly when the two
rectangles overlap strictly on both axes, and rectangles that merely touch
along an edge (either axis, either side) do not collide. -/
theorem C8_aabb_strict_overlap (a b : GameEntity) :
    (checkCollision a b ↔
      (a.pos.x < b.pos.x + b.size.x ∧ a.pos.x + a.size.x > b.pos.x ∧
       a.pos.y < b.pos.y + b.size.y ∧ a.pos.y + a.size.y > b.pos.y)) ∧
    ((a.pos.x + a.size.x = b.pos.x ∨ b.pos.x + b.size.x = a.pos.x ∨
      a.pos.y + a.size.y = b.pos.y ∨ b.pos.y + b.size.y = a.pos.y) →
      ¬ checkCollision a b) := by
  constructor
  · exact Iff.rfl
  · rintro (h | h | h | h) ⟨h1, h2, h3, h4⟩ <;> simp_all

/-- Claim C8 (witness): the square at `(0,0)` and the square at `(10,0)`,
touching along the shared edge `x = 10`, do not collide. -/
theorem C8_aabb_strict_overlap_witness : ¬ checkCollision squareL squareR :=
  (C8_aabb_strict_overlap squareL squareR).2
    (Or.inl (by norm_num [squareL, squareR]))

/-- Claim C9 (amended).  Level load performs no validation: `setupLevel`
instantiates every blueprint entity as-is — its size preserved, a zero-size
entity included — appends the player, and always produces a World State of
`entities.length + 1` entities.  (No failure path exists; see the
counterexample for the frame loop running over a zero-size world.) -/
theorem C9_no_load_validation (level : LevelData) (t : EntityTemplate)
    (ht : t ∈ level.entities) :
    instantiateTemplate t ∈ setupLevel level ∧
    (instantiateTemplate t).size = t.size ∧
    (setupLevel level).length = level.entities.length + 1 := by
  refine ⟨?_, rfl, ?_⟩
  · exact List.mem_append_left _ (List.mem_map_of_mem instantiateTemplate ht)
  · simp [setupLevel]

/-- Claim C9 (witness): the zero-size wall template of `badLevelC9` is loaded
as-is. -/
theorem C9_no_load_validation_witness :
    instantiateTemplate zeroSizeTemplate ∈ setupLevel badLevelC9 ∧
    (instantiateTemplate zeroSizeTemplate).size = zeroSizeTemplate.size ∧
    (setupLevel badLevelC9).length = badLevelC9.entities.length + 1 :=
  C9_no_load_validation badLevelC9 zeroSizeTemplate (by simp [badLevelC9])

lemma frameC9_outcome :
    (frameStep physFrictionOnly keys0 60 0 none (setupLevel badLevelC9)).outcome =
      Outcome.ok := by
  norm_num +decide [frameStep, frameStepDt, computeDeltaTime, frameLoop, processOne,
    patrolUpdate, turretUpdate, turretFireData, fireArmed, applyGravity,
    playerControl, collideXLoop, collideXOne, collideYLoop, collideYOne,
    checkCollision, CANVAS_WIDTH, CANVAS_HEIGHT, setupLevel, badLevelC9,
    zeroSizeTemplate, instantiateTemplate, physFrictionOnly, keys0, mkPlayer,
    findPlayer, truthyOpt, entCenter, List.find?, keepEntity]

/-- Claim C9 (counterexample).  A blueprint with a zero-size entity loads
without any error — `setupLevel` produces a two-entity World State containing
the `size.x = 0` wall — and the engine then runs a frame loop over that
invalid World State, committing normally (`Outcome.ok`): there is no fail-fast
load error and nothing blocks the frame loop. -/
theorem C9_zero_size_loads_counterexample :
    (setupLevel badLevelC9).length = 2 ∧
    (∃ ent ∈ setupLevel badLevelC9, ent.size.x = 0) ∧
    (frameStep physFrictionOnly keys0 60 0 none (setupLevel badLevelC9)).outcome =
      Outcome.ok := by
  refine ⟨rfl, ⟨instantiateTemplate zeroSizeTemplate, ?_, rfl⟩, frameC9_outcome⟩
  simp [setupLevel, badLevelC9]

/-- Claim C10 (confirmed).  Projectiles spawned during a frame are only
accumulated: the per-frame entity loop's processed entities, final
click-target and outcome are the same whatever the projectile accumulator
holds (the spawned list is appended, never read), and on a completed frame the
committed entity list is the processed list (filtered) followed by the spawned
projectiles — so a projectile spawned in frame N is not moved, not consulted
by any collision query and cannot change the frame's outcome during frame N,
and first participates as a member of the committed list in frame N+1. -/
theorem C10_projectiles_deferred :
    (∀ (ctx : Ctx) (done todo : List GameEntity) (target : Option ℝ)
       (pr : List GameEntity),
       frameLoop ctx done todo target pr =
         match frameLoop ctx done todo target [] with
         | LoopResult.finished p t s => LoopResult.finished p t (pr ++ s)
         | LoopResult.aborted a d t => LoopResult.aborted a d t) ∧
    (∀ (phys : GlobalPhysics) (keys : Keys) (time dt : ℝ) (target : Option ℝ)
       (entities processed : List GameEntity) (tg : Option ℝ)
       (spawned : List GameEntity),
       frameLoop ⟨phys, keys, time, dt⟩ [] entities target [] =
         LoopResult.finished processed tg spawned →
       (frameStepDt phys keys time dt target entities).entities =
         processed.filter keepEntity ++ spawned) := by
  constructor
  · intro ctx done todo
    induction todo generalizing done with
    | nil => intro target pr; simp [frameLoop]
    | cons e rest ih =>
      intro target pr
      simp only [frameLoop]
      cases h : processOne ctx (done ++ e :: rest) target e with
      | error a => rfl
      | ok r =>
        dsimp only
        rw [ih (done ++ [r.ent]) r.target (pr ++ r.spawned),
          ih (done ++ [r.ent]) r.target ([] ++ r.spawned)]
        cases frameLoop ctx (done ++ [r.ent]) rest r.target [] <;>
          simp [List.append_assoc]
  · intro phys keys time dt target entities processed tg spawned h
    simp only [frameStepDt, h]

/-- Claim C10 (witness): on the empty world the frame commits the empty list
(the append equation at the concrete input). -/
theorem C10_projectiles_deferred_witness :
    (frameStepDt physFrictionOnly keys0 0 0.05 none []).entities = [] := by
  have h := C10_projectiles_deferred.2 physFrictionOnly keys0 0 0.05 none [] []
    none [] rfl
  simpa using h

end GlitchRunner
